import Mathlib

/-!
Shallow embedding of the spaces-design policy store (src/js/stores/policy.js),
the immutable Document model, and the NumberInput value extraction, together
with theorems settling the specification claims about them.
-/

namespace SpacesDesign

/-- Policies themselves are opaque to the store; a policy list is modelled as a
list of integers. -/
abbrev PolicyList := List Int

/-- Modelled from the spec: the EventPolicySet model (js/models/eventpolicyset,
required by the policy store but not present in the sources) — a set of policy
lists indexed by numeric IDs, with a monotone ID counter that the constructor
can seed so that IDs issued later continue from a given point. -/
structure EventPolicySet where
  counter : Nat
  entries : List (Nat × PolicyList)
deriving DecidableEq, Repr

namespace EventPolicySet

/-- Modelled from the spec: `new EventPolicySet(counter)` — a fresh, empty
policy set whose ID counter starts at `c`. -/
def empty (c : Nat) : EventPolicySet := ⟨c, []⟩

/-- Modelled from the spec: `getNextPolicyID()` — the next policy-list ID that
will be issued. -/
def getNextPolicyID (s : EventPolicySet) : Nat := s.counter

/-- Modelled from the spec: `addPolicyList(policyList)` — install a policy list
under the next ID and return that ID together with the updated set. -/
def addPolicyList (s : EventPolicySet) (l : PolicyList) : Nat × EventPolicySet :=
  (s.counter, ⟨s.counter + 1, s.entries ++ [(s.counter, l)]⟩)

/-- Modelled from the spec: `has(id)` — whether a policy list with the given ID
is installed in this set. -/
def has (s : EventPolicySet) (id : Nat) : Bool :=
  s.entries.any (fun e => e.1 == id)

/-- The policy list stored under `id`, if any. -/
def lookupList (s : EventPolicySet) (id : Nat) : Option PolicyList :=
  (s.entries.find? (fun e => e.1 == id)).map (fun e => e.2)

/-- Modelled from the spec: `removePolicyList(id)` — remove the policy list
with the given ID, returning the removed list (if any) and the updated set. -/
def removePolicyList (s : EventPolicySet) (id : Nat) : Option PolicyList × EventPolicySet :=
  (s.lookupList id, ⟨s.counter, s.entries.filter (fun e => e.1 != id)⟩)

/-- Modelled from the spec: `getMasterPolicyList()` — the concatenation of all
installed policy lists. -/
def getMasterPolicyList (s : EventPolicySet) : List Int :=
  s.entries.foldr (fun e acc => e.2 ++ acc) []

/-- Modelled from the spec: `append(other)` — the stacking combinator used by
`restore`: all policy lists of `s` together with those of `other`, the counter
continuing past both. -/
def append (s other : EventPolicySet) : EventPolicySet :=
  ⟨max s.counter other.counter, s.entries ++ other.entries⟩

/-- Every installed ID is below the counter, so freshly issued IDs are new. -/
def wellFormed (s : EventPolicySet) : Bool :=
  s.entries.all (fun e => e.1 < s.counter)

end EventPolicySet

/-- The two event kinds tracked by the policy store (`PolicyStore.eventKind`). -/
inductive EventKind
  | keyboard
  | pointer
deriving DecidableEq, Repr

/-- The state of the PolicyStore: policy sets, modes, suspended policy sets,
suspended modes and dirty bits, each indexed by event kind.  Absent properties
of the JavaScript objects are modelled as `none` / `false`. -/
structure PolicyStoreState where
  policySets : EventKind → EventPolicySet
  modes : EventKind → Option Int
  suspendedPolicySets : EventKind → Option EventPolicySet
  suspendedModes : EventKind → Option Int
  dirtyPolicies : EventKind → Bool

/-- Pointwise update of a kind-indexed table. -/
def upd {α : Type} (f : EventKind → α) (k : EventKind) (v : α) : EventKind → α :=
  fun j => if j = k then v else f j

namespace PolicyStoreState

/-- `_handleReset`: reset or initialize store state. -/
def handleReset : PolicyStoreState :=
  { policySets := fun _ => EventPolicySet.empty 0
    modes := fun _ => none
    suspendedPolicySets := fun _ => none
    suspendedModes := fun _ => none
    dirtyPolicies := fun _ => false }

/-- `isDirty(kind)`: whether the policy needs to be synced. -/
def isDirty (kind : EventKind) (s : PolicyStoreState) : Bool :=
  s.dirtyPolicies kind

/-- `getMode(kind)`: the current mode for the given event kind. -/
def getMode (kind : EventKind) (s : PolicyStoreState) : Option Int :=
  s.modes kind

/-- `isSuspended(kind)`: whether policies for the kind are suspended. -/
def isSuspended (kind : EventKind) (s : PolicyStoreState) : Bool :=
  (s.suspendedPolicySets kind).isSome

/-- `areAllSuspended()`: exactly as written in the source, both conjuncts test
the KEYBOARD entry of the suspended policy sets. -/
def areAllSuspended (s : PolicyStoreState) : Bool :=
  (s.suspendedPolicySets EventKind.keyboard).isSome &&
    (s.suspendedPolicySets EventKind.keyboard).isSome

/-- `getMasterPolicyList(kind)`. -/
def getMasterPolicyList (kind : EventKind) (s : PolicyStoreState) : List Int :=
  (s.policySets kind).getMasterPolicyList

/-- `suspend(kind)`: stash the active policy set and mode, and start a fresh
policy set whose counter continues from the stashed set. -/
def suspend (kind : EventKind) (s : PolicyStoreState) : PolicyStoreState :=
  let previousPolicySet := s.policySets kind
  let counter := previousPolicySet.getNextPolicyID
  { s with
    policySets := upd s.policySets kind (EventPolicySet.empty counter)
    suspendedPolicySets := upd s.suspendedPolicySets kind (some previousPolicySet)
    suspendedModes := upd s.suspendedModes kind (s.modes kind)
    dirtyPolicies := upd s.dirtyPolicies kind true }

/-- `restore(kind)`: throw when not suspended (first component `some` error
message, state untouched); otherwise restore the mode, append the policies
accumulated since suspension to the suspended set, and clear the suspension. -/
def restoreRun (kind : EventKind) (s : PolicyStoreState) :
    Option String × PolicyStoreState :=
  match s.suspendedPolicySets kind with
  | none => (some "Policies are not currently suspended", s)
  | some suspendedPolicies =>
      (none,
        { s with
          modes := upd s.modes kind (s.suspendedModes kind)
          policySets := upd s.policySets kind
            (suspendedPolicies.append (s.policySets kind))
          suspendedPolicySets := upd s.suspendedPolicySets kind none
          dirtyPolicies := upd s.dirtyPolicies kind true })

/-- `addPolicyList(kind, policyList)`: mark dirty, install into the active set
and return the issued ID. -/
def addPolicyList (kind : EventKind) (l : PolicyList) (s : PolicyStoreState) :
    Nat × PolicyStoreState :=
  let r := (s.policySets kind).addPolicyList l
  (r.1,
    { s with
      policySets := upd s.policySets kind r.2
      dirtyPolicies := upd s.dirtyPolicies kind true })

/-- `removePolicyList(kind, id)`: mark dirty; remove from the suspended set
when one exists and contains the ID, otherwise from the active set. -/
def removePolicyList (kind : EventKind) (id : Nat) (s : PolicyStoreState) :
    Option PolicyList × PolicyStoreState :=
  match s.suspendedPolicySets kind with
  | some suspendedPolicySet =>
      if suspendedPolicySet.has id then
        let r := suspendedPolicySet.removePolicyList id
        (r.1,
          { s with
            suspendedPolicySets := upd s.suspendedPolicySets kind (some r.2)
            dirtyPolicies := upd s.dirtyPolicies kind true })
      else
        let r := (s.policySets kind).removePolicyList id
        (r.1,
          { s with
            policySets := upd s.policySets kind r.2
            dirtyPolicies := upd s.dirtyPolicies kind true })
  | none =>
      let r := (s.policySets kind).removePolicyList id
      (r.1,
        { s with
          policySets := upd s.policySets kind r.2
          dirtyPolicies := upd s.dirtyPolicies kind true })

/-- `_handlePoliciesInstalled`: clear the dirty bit for the kind. -/
def handlePoliciesInstalled (kind : EventKind) (s : PolicyStoreState) :
    PolicyStoreState :=
  { s with dirtyPolicies := upd s.dirtyPolicies kind false }

/-- `_handleModeChanged`: set the current mode for the kind. -/
def handleModeChanged (kind : EventKind) (mode : Int) (s : PolicyStoreState) :
    PolicyStoreState :=
  { s with modes := upd s.modes kind (some mode) }

end PolicyStoreState

/-- Every state-changing entry point of the policy store, used to express
invariants quantified over operations. -/
inductive PolicyOp
  | suspendOp (kind : EventKind)
  | restoreOp (kind : EventKind)
  | addOp (kind : EventKind) (l : PolicyList)
  | removeOp (kind : EventKind) (id : Nat)
  | modeChangedOp (kind : EventKind) (mode : Int)
  | policiesInstalledOp (kind : EventKind)
  | resetOp
deriving DecidableEq, Repr

/-- Apply one store operation to the state (a throwing `restore` changes
nothing, as the exception is raised before any mutation). -/
def stepOp : PolicyOp → PolicyStoreState → PolicyStoreState
  | .suspendOp k, s => s.suspend k
  | .restoreOp k, s => (s.restoreRun k).2
  | .addOp k l, s => (s.addPolicyList k l).2
  | .removeOp k id, s => (s.removePolicyList k id).2
  | .modeChangedOp k m, s => s.handleModeChanged k m
  | .policiesInstalledOp k, s => s.handlePoliciesInstalled k
  | .resetOp, _ => PolicyStoreState.handleReset

/-- A numeric field of a Photoshop descriptor, carrying its value. -/
structure ValueWrapper where
  value : Int
deriving DecidableEq, Repr

/-- The fields of a Photoshop document descriptor that the Document model
reads: `documentID`, `title`, `hasBackgroundLayer`, `resolution`, `mode`, and
the dimensions consumed by `Bounds.fromDocumentDescriptor`. -/
structure DocumentDescriptor where
  documentID : Int
  title : String
  hasBackgroundLayer : Bool
  resolution : ValueWrapper
  mode : ValueWrapper
  width : Int
  height : Int
deriving DecidableEq, Repr

/-- Document bounds: position and size. -/
structure Bounds where
  top : Int
  left : Int
  width : Int
  height : Int
deriving DecidableEq, Repr

/-- Modelled from the spec: `Bounds.updateSize(x, y)` (js/models/bounds, not in
the sources) — the same bounds with the size replaced by `(x, y)`. -/
def Bounds.updateSize (b : Bounds) (x y : Int) : Bounds :=
  { b with width := x, height := y }

/-- Modelled from the spec: `Bounds.fromDocumentDescriptor` (js/models/bounds,
not in the sources) — bounds built from the document descriptor. -/
def Bounds.fromDocumentDescriptor (d : DocumentDescriptor) : Bounds :=
  { top := 0, left := 0, width := d.width, height := d.height }

/-- Layer descriptors are opaque to the Document model. -/
abbrev LayerDescriptor := Int

/-- Modelled from the spec: the layer tree (js/models/layerstructure, not in
the sources), opaque to the Document model. -/
structure LayerStructure where
  layerIDs : List LayerDescriptor
deriving DecidableEq, Repr

/-- Modelled from the spec: `LayerStructure.fromDescriptors` (js/models/
layerstructure, not in the sources) — the layer tree built from the document
and layer descriptors. -/
def LayerStructure.fromDescriptors (d : DocumentDescriptor)
    (layerDescriptors : List LayerDescriptor) : LayerStructure :=
  ⟨d.documentID :: layerDescriptors⟩

/-- The immutable Document record: `id`, `name`, `hasBackgroundLayer`,
`layers`, `bounds`, `resolution` and `mode`. -/
structure Document where
  id : Int
  name : String
  hasBackgroundLayer : Bool
  layers : LayerStructure
  bounds : Bounds
  resolution : Int
  mode : Int
deriving DecidableEq, Repr

/-- `Document.fromDescriptors`: build a Document from a Photoshop document
descriptor and a list of layer descriptors, field for field as in the source. -/
def Document.fromDescriptors (documentDescriptor : DocumentDescriptor)
    (layerDescriptors : List LayerDescriptor) : Document :=
  { id := documentDescriptor.documentID
    hasBackgroundLayer := documentDescriptor.hasBackgroundLayer
    name := documentDescriptor.title
    resolution := documentDescriptor.resolution.value
    mode := documentDescriptor.mode.value
    bounds := Bounds.fromDocumentDescriptor documentDescriptor
    layers := LayerStructure.fromDescriptors documentDescriptor layerDescriptors }

/-- `Document.prototype.resize(x, y)`: a new Document whose bounds are the old
bounds resized to `(x, y)`. -/
def Document.resize (d : Document) (x y : Int) : Document :=
  { d with bounds := d.bounds.updateSize x y }

/-- A JavaScript number as classified by finiteness: NaN, the two infinities,
or a finite value (modelled as an integer; the claims under consideration do
no arithmetic on it). -/
inductive JSNumber
  | nan
  | posInf
  | negInf
  | finite (value : Int)
deriving DecidableEq, Repr

/-- Decimal digit accumulator for the modelled parser. -/
def parseDigitsAcc : List Char → Nat → Option Nat
  | [], acc => some acc
  | c :: cs, acc =>
      if 48 ≤ c.toNat ∧ c.toNat ≤ 57 then
        parseDigitsAcc cs (acc * 10 + (c.toNat - 48))
      else
        none

/-- Modelled from the spec: `math.parseNumber(rawValue, 10)` (js/util/math,
not in the sources) — parse a raw string as a base-10 number (an optional
minus sign followed by decimal digits), yielding NaN when the string is not
numeric. -/
def parseNumber (rawValue : String) : JSNumber :=
  match rawValue.data with
  | [] => JSNumber.nan
  | c :: cs =>
      if c.toNat = 45 then
        match cs with
        | [] => JSNumber.nan
        | _ :: _ =>
            match parseDigitsAcc cs 0 with
            | some n => JSNumber.finite (-(n : Int))
            | none => JSNumber.nan
      else
        match parseDigitsAcc (c :: cs) 0 with
        | some n => JSNumber.finite (n : Int)
        | none => JSNumber.nan

/-- Modelled from the spec: lodash `_.isFinite` — true exactly on finite
numbers, false on NaN and the infinities. -/
def isFinite : JSNumber → Bool
  | .finite _ => true
  | _ => false

/-- `NumberInput.extractValue(rawValue)`: parse, then return the value if it
is finite and null (`none`) otherwise. -/
def extractValue (rawValue : String) : Option JSNumber :=
  let value := parseNumber rawValue
  if isFinite value then some value else none

/-! ### Helper lemmas and sample states -/

theorem upd_same {α : Type} (f : EventKind → α) (k : EventKind) (v : α) :
    upd f k v k = v := by
  simp [upd]

theorem upd_other {α : Type} (f : EventKind → α) (k j : EventKind) (v : α)
    (h : j ≠ k) : upd f k v j = f j := by
  simp [upd, h]

/-- A concrete policy set used to instantiate theorems with hypotheses. -/
def sampleSet : EventPolicySet := ⟨2, [(0, [5]), (1, [7, 8])]⟩

/-- A concrete store state: keyboard policies suspended, pointer policies not. -/
def sampleState : PolicyStoreState :=
  { policySets := fun k => match k with
      | .keyboard => ⟨4, [(2, [9])]⟩
      | .pointer => EventPolicySet.empty 0
    modes := fun k => match k with
      | .keyboard => some 3
      | .pointer => none
    suspendedPolicySets := fun k => match k with
      | .keyboard => some sampleSet
      | .pointer => none
    suspendedModes := fun k => match k with
      | .keyboard => some 1
      | .pointer => none
    dirtyPolicies := fun _ => false }

/-! ### Claim theorems -/

/-- C1: for every suspended event kind, `restore(kind)` sets the current mode
back to the mode saved at suspension time, sets the active policy set to the
suspended set appended with the set accumulated since suspension, makes
`isSuspended(kind)` false, and marks the kind dirty. -/
theorem restore_restores_suspended_state (kind : EventKind)
    (s : PolicyStoreState) (sp : EventPolicySet)
    (h : s.suspendedPolicySets kind = some sp) :
    (s.restoreRun kind).1 = none ∧
    (s.restoreRun kind).2.modes kind = s.suspendedModes kind ∧
    (s.restoreRun kind).2.policySets kind = sp.append (s.policySets kind) ∧
    PolicyStoreState.isSuspended kind (s.restoreRun kind).2 = false ∧
    PolicyStoreState.isDirty kind (s.restoreRun kind).2 = true := by
  simp [PolicyStoreState.restoreRun, h, PolicyStoreState.isSuspended,
    PolicyStoreState.isDirty, upd]

/-- Witness for C1 at the sample state, whose keyboard policies are
suspended. -/
theorem restore_restores_suspended_state_witness :
    sampleState.suspendedPolicySets EventKind.keyboard = some sampleSet ∧
    (sampleState.restoreRun EventKind.keyboard).1 = none ∧
    (sampleState.restoreRun EventKind.keyboard).2.modes EventKind.keyboard =
      sampleState.suspendedModes EventKind.keyboard ∧
    (sampleState.restoreRun EventKind.keyboard).2.policySets EventKind.keyboard =
      sampleSet.append (sampleState.policySets EventKind.keyboard) ∧
    PolicyStoreState.isSuspended EventKind.keyboard
      (sampleState.restoreRun EventKind.keyboard).2 = false ∧
    PolicyStoreState.isDirty EventKind.keyboard
      (sampleState.restoreRun EventKind.keyboard).2 = true :=
  ⟨rfl, restore_restores_suspended_state EventKind.keyboard sampleState
    sampleSet rfl⟩

/-- C2: `restore(kind)` throws "Policies are not currently suspended" exactly
when policies for the kind are not suspended, and on a throw the state is
returned completely unchanged. -/
theorem restore_throws_iff_not_suspended (kind : EventKind)
    (s : PolicyStoreState) :
    ((s.restoreRun kind).1.isSome = !(PolicyStoreState.isSuspended kind s)) ∧
    (PolicyStoreState.isSuspended kind s = false →
      s.restoreRun kind = (some "Policies are not currently suspended", s)) := by
  cases h : s.suspendedPolicySets kind with
  | none =>
      simp [PolicyStoreState.restoreRun, h, PolicyStoreState.isSuspended]
  | some sp =>
      simp [PolicyStoreState.restoreRun, h, PolicyStoreState.isSuspended]

/-- Witness for C2 at the sample state, whose pointer policies are not
suspended. -/
theorem restore_throws_iff_not_suspended_witness :
    PolicyStoreState.isSuspended EventKind.pointer sampleState = false ∧
    sampleState.restoreRun EventKind.pointer =
      (some "Policies are not currently suspended", sampleState) :=
  ⟨rfl, (restore_throws_iff_not_suspended EventKind.pointer sampleState).2 rfl⟩

/-- C3: `suspend(kind)` immediately followed by `restore(kind)` does not throw
and yields a state with the same mode and the same master policy list for the
kind as the original, `isSuspended(kind)` false, and the dirty bit set. -/
theorem suspend_restore_roundtrip (kind : EventKind) (s : PolicyStoreState) :
    ((s.suspend kind).restoreRun kind).1 = none ∧
    PolicyStoreState.getMode kind ((s.suspend kind).restoreRun kind).2 =
      PolicyStoreState.getMode kind s ∧
    PolicyStoreState.getMasterPolicyList kind
        ((s.suspend kind).restoreRun kind).2 =
      PolicyStoreState.getMasterPolicyList kind s ∧
    PolicyStoreState.isSuspended kind ((s.suspend kind).restoreRun kind).2 =
      false ∧
    PolicyStoreState.isDirty kind ((s.suspend kind).restoreRun kind).2 =
      true := by
  simp [PolicyStoreState.suspend, PolicyStoreState.restoreRun, upd,
    PolicyStoreState.getMode, PolicyStoreState.getMasterPolicyList,
    PolicyStoreState.isSuspended, PolicyStoreState.isDirty,
    EventPolicySet.append, EventPolicySet.empty,
    EventPolicySet.getMasterPolicyList, EventPolicySet.getNextPolicyID]

/-- C4: `extractValue` returns null exactly when the parsed number is not
finite (NaN and the infinities are not finite), and returns the parsed number
when it is finite. -/
theorem extractValue_rejects_nonfinite (rawValue : String) :
    (extractValue rawValue = none ↔ isFinite (parseNumber rawValue) = false) ∧
    (isFinite (parseNumber rawValue) = true →
      extractValue rawValue = some (parseNumber rawValue)) ∧
    isFinite JSNumber.nan = false ∧
    isFinite JSNumber.posInf = false ∧
    isFinite JSNumber.negInf = false := by
  cases h : parseNumber rawValue <;>
    simp [extractValue, h, isFinite]

/-- Witness for C4: a numeric string parses to a finite number and is
returned; a non-numeric string is rejected. -/
theorem extractValue_rejects_nonfinite_witness :
    isFinite (parseNumber "42") = true ∧
    extractValue "42" = some (parseNumber "42") ∧
    extractValue "abc" = none :=
  ⟨by decide, (extractValue_rejects_nonfinite "42").2.1 (by decide),
    (extractValue_rejects_nonfinite "abc").1.mpr (by decide)⟩

/-- C5: `Document.resize(x, y)` returns a new Document whose bounds are the
original bounds updated to size `(x, y)` and whose every other field equals
the original's (the original value is itself immutable). -/
theorem resize_updates_only_bounds (d : Document) (x y : Int) :
    (d.resize x y).bounds = d.bounds.updateSize x y ∧
    (d.resize x y).id = d.id ∧
    (d.resize x y).name = d.name ∧
    (d.resize x y).hasBackgroundLayer = d.hasBackgroundLayer ∧
    (d.resize x y).layers = d.layers ∧
    (d.resize x y).resolution = d.resolution ∧
    (d.resize x y).mode = d.mode := by
  simp [Document.resize]

/-- C6: `Document.fromDescriptors` mirrors the host descriptor field for
field. -/
theorem fromDescriptors_mirrors_descriptor (dd : DocumentDescriptor)
    (lds : List LayerDescriptor) :
    (Document.fromDescriptors dd lds).id = dd.documentID ∧
    (Document.fromDescriptors dd lds).name = dd.title ∧
    (Document.fromDescriptors dd lds).hasBackgroundLayer =
      dd.hasBackgroundLayer ∧
    (Document.fromDescriptors dd lds).resolution = dd.resolution.value ∧
    (Document.fromDescriptors dd lds).mode = dd.mode.value ∧
    (Document.fromDescriptors dd lds).bounds =
      Bounds.fromDocumentDescriptor dd ∧
    (Document.fromDescriptors dd lds).layers =
      LayerStructure.fromDescriptors dd lds := by
  simp [Document.fromDescriptors]

/-- In a well-formed policy set every installed ID is below the counter, so
any ID at or above the counter is absent. -/
theorem has_eq_false_of_wellFormed (sp : EventPolicySet) (id : Nat)
    (hwf : sp.wellFormed = true) (hge : sp.counter ≤ id) :
    sp.has id = false := by
  simp only [EventPolicySet.wellFormed, List.all_eq_true] at hwf
  simp only [EventPolicySet.has, List.any_eq_false]
  intro e he
  have h1 := hwf e he
  simp only [decide_eq_true_eq] at h1
  have hne : e.1 ≠ id := by omega
  simp [hne]

/-- C7: `suspend(kind)` replaces the active policy set with a fresh empty set
whose counter continues from the suspended set's next policy ID (so an ID
issued by any set whose counter is at least that — as every set active during
the suspension is, since `addPolicyList` never decreases the counter — never
collides with an ID installed in the well-formed suspended set), marks the
kind suspended and dirty, and leaves the mode for the kind and the entire
state of the other kind unchanged. -/
theorem suspend_frame_effect (kind : EventKind) (s : PolicyStoreState) :
    (s.suspend kind).policySets kind =
      EventPolicySet.empty ((s.policySets kind).getNextPolicyID) ∧
    (s.suspend kind).suspendedPolicySets kind = some (s.policySets kind) ∧
    PolicyStoreState.isSuspended kind (s.suspend kind) = true ∧
    PolicyStoreState.isDirty kind (s.suspend kind) = true ∧
    PolicyStoreState.getMode kind (s.suspend kind) =
      PolicyStoreState.getMode kind s ∧
    (∀ k2, k2 ≠ kind →
      (s.suspend kind).policySets k2 = s.policySets k2 ∧
      (s.suspend kind).modes k2 = s.modes k2 ∧
      (s.suspend kind).suspendedPolicySets k2 = s.suspendedPolicySets k2 ∧
      (s.suspend kind).suspendedModes k2 = s.suspendedModes k2 ∧
      (s.suspend kind).dirtyPolicies k2 = s.dirtyPolicies k2) ∧
    ((s.policySets kind).wellFormed = true →
      ∀ (t : EventPolicySet) (l : PolicyList),
        ((s.suspend kind).policySets kind).counter ≤ t.counter →
        (s.policySets kind).has (t.addPolicyList l).1 = false) ∧
    (∀ (t : EventPolicySet) (l : PolicyList),
      t.counter ≤ ((t.addPolicyList l).2).counter) := by
  refine ⟨?_, ?_, ?_, ?_, ?_, ?_, ?_, ?_⟩
  · simp [PolicyStoreState.suspend, upd]
  · simp [PolicyStoreState.suspend, upd]
  · simp [PolicyStoreState.suspend, PolicyStoreState.isSuspended, upd]
  · simp [PolicyStoreState.suspend, PolicyStoreState.isDirty, upd]
  · simp [PolicyStoreState.suspend, PolicyStoreState.getMode]
  · intro k2 hk2
    simp [PolicyStoreState.suspend, upd, hk2]
  · intro hwf t l hle
    simp only [PolicyStoreState.suspend, upd_same, EventPolicySet.empty,
      EventPolicySet.getNextPolicyID] at hle
    exact has_eq_false_of_wellFormed (s.policySets kind)
      (t.addPolicyList l).1 hwf (le_trans hle (le_refl t.counter))
  · intro t l
    simp [EventPolicySet.addPolicyList]

/-- Witness for C7: at the sample state, the other kind's mode is untouched
and the first ID issued after suspending a well-formed keyboard set is absent
from the suspended set. -/
theorem suspend_frame_effect_witness :
    (sampleState.suspend EventKind.keyboard).modes EventKind.pointer =
      sampleState.modes EventKind.pointer ∧
    (sampleState.policySets EventKind.keyboard).wellFormed = true ∧
    (sampleState.policySets EventKind.keyboard).has
      ((EventPolicySet.empty 4).addPolicyList [1]).1 = false :=
  ⟨((suspend_frame_effect EventKind.keyboard sampleState).2.2.2.2.2.1
      EventKind.pointer (by decide)).2.1,
   by decide,
   (suspend_frame_effect EventKind.keyboard sampleState).2.2.2.2.2.2.1
      (by decide) (EventPolicySet.empty 4) [1] (by decide)⟩

/-- C8: as written in the source, `areAllSuspended()` tests the keyboard entry
twice, so it agrees with `isSuspended(KEYBOARD)` for every state and returns
true at a state where pointer policies are not suspended, where the
conjunction of the two `isSuspended` results is false. -/
theorem areAllSuspended_keyboard_only :
    (∀ s : PolicyStoreState,
      PolicyStoreState.areAllSuspended s =
        PolicyStoreState.isSuspended EventKind.keyboard s) ∧
    PolicyStoreState.areAllSuspended sampleState = true ∧
    PolicyStoreState.isSuspended EventKind.pointer sampleState = false ∧
    (PolicyStoreState.isSuspended EventKind.keyboard sampleState &&
      PolicyStoreState.isSuspended EventKind.pointer sampleState) = false := by
  refine ⟨?_, rfl, rfl, by decide⟩
  intro s
  simp [PolicyStoreState.areAllSuspended, PolicyStoreState.isSuspended]

/-- C9: suspend, successful restore, addPolicyList and removePolicyList (even
when nothing is removed) all leave the kind's dirty bit set, and among all
store operations only the POLICIES_INSTALLED handler for the kind and a full
reset can take the dirty bit from set to clear. -/
theorem dirty_bit_invariant :
    (∀ (kind : EventKind) (s : PolicyStoreState),
      PolicyStoreState.isDirty kind (s.suspend kind) = true) ∧
    (∀ (kind : EventKind) (s : PolicyStoreState),
      PolicyStoreState.isSuspended kind s = true →
      PolicyStoreState.isDirty kind (s.restoreRun kind).2 = true) ∧
    (∀ (kind : EventKind) (l : PolicyList) (s : PolicyStoreState),
      PolicyStoreState.isDirty kind (s.addPolicyList kind l).2 = true) ∧
    (∀ (kind : EventKind) (id : Nat) (s : PolicyStoreState),
      PolicyStoreState.isDirty kind (s.removePolicyList kind id).2 = true) ∧
    (∀ (op : PolicyOp) (kind : EventKind) (s : PolicyStoreState),
      PolicyStoreState.isDirty kind s = true →
      PolicyStoreState.isDirty kind (stepOp op s) = false →
      op = PolicyOp.policiesInstalledOp kind ∨ op = PolicyOp.resetOp) := by
  refine ⟨?_, ?_, ?_, ?_, ?_⟩
  · intro kind s
    simp [PolicyStoreState.suspend, PolicyStoreState.isDirty, upd]
  · intro kind s hsusp
    rw [PolicyStoreState.isSuspended] at hsusp
    cases h : s.suspendedPolicySets kind with
    | none => rw [h] at hsusp; simp at hsusp
    | some sp =>
        simp [PolicyStoreState.restoreRun, h, PolicyStoreState.isDirty, upd]
  · intro kind l s
    simp [PolicyStoreState.addPolicyList, PolicyStoreState.isDirty, upd]
  · intro kind id s
    cases h : s.suspendedPolicySets kind with
    | none =>
        simp [PolicyStoreState.removePolicyList, h,
          PolicyStoreState.isDirty, upd]
    | some sp =>
        by_cases hh : sp.has id = true
        · simp [PolicyStoreState.removePolicyList, h, hh,
            PolicyStoreState.isDirty, upd]
        · simp [PolicyStoreState.removePolicyList, h, hh,
            PolicyStoreState.isDirty, upd]
  · intro op kind s hd hf
    cases op with
    | suspendOp k =>
        rw [stepOp] at hf
        rw [PolicyStoreState.isDirty] at hd hf
        by_cases hk : kind = k
        · subst hk
          simp [PolicyStoreState.suspend, upd] at hf
        · simp [PolicyStoreState.suspend, upd, hk, hd] at hf
    | restoreOp k =>
        rw [stepOp] at hf
        rw [PolicyStoreState.isDirty] at hd hf
        cases h : s.suspendedPolicySets k with
        | none => rw [PolicyStoreState.restoreRun, h] at hf; exact absurd hf (by simp [hd])
        | some sp =>
            by_cases hk : kind = k
            · subst hk
              simp [PolicyStoreState.restoreRun, h, upd] at hf
            · simp [PolicyStoreState.restoreRun, h, upd, hk, hd] at hf
    | addOp k l =>
        rw [stepOp] at hf
        rw [PolicyStoreState.isDirty] at hd hf
        by_cases hk : kind = k
        · subst hk
          simp [PolicyStoreState.addPolicyList, upd] at hf
        · simp [PolicyStoreState.addPolicyList, upd, hk, hd] at hf
    | removeOp k id =>
        rw [stepOp] at hf
        rw [PolicyStoreState.isDirty] at hd hf
        cases h : s.suspendedPolicySets k with
        | none =>
            by_cases hk : kind = k
            · subst hk
              simp [PolicyStoreState.removePolicyList, h, upd] at hf
            · simp [PolicyStoreState.removePolicyList, h, upd, hk, hd] at hf
        | some sp =>
            by_cases hh : sp.has id = true
            · by_cases hk : kind = k
              · subst hk
                simp [PolicyStoreState.removePolicyList, h, hh, upd] at hf
              · simp [PolicyStoreState.removePolicyList, h, hh, upd,
                  hk, hd] at hf
            · by_cases hk : kind = k
              · subst hk
                simp [PolicyStoreState.removePolicyList, h, hh, upd] at hf
              · simp [PolicyStoreState.removePolicyList, h, hh, upd,
                  hk, hd] at hf
    | modeChangedOp k m =>
        rw [stepOp] at hf
        rw [PolicyStoreState.isDirty] at hd hf
        simp [PolicyStoreState.handleModeChanged, hd] at hf
    | policiesInstalledOp k =>
        rw [stepOp] at hf
        rw [PolicyStoreState.isDirty] at hd hf
        by_cases hk : kind = k
        · subst hk
          exact Or.inl rfl
        · simp [PolicyStoreState.handlePoliciesInstalled, upd, hk, hd] at hf
    | resetOp => exact Or.inr rfl

/-- Witness for C9: the dirty bit survives a successful restore at the sample
state, and clearing it via POLICIES_INSTALLED is recognized as the only
non-reset clearing operation. -/
theorem dirty_bit_invariant_witness :
    PolicyStoreState.isSuspended EventKind.keyboard sampleState = true ∧
    PolicyStoreState.isDirty EventKind.keyboard
      (sampleState.restoreRun EventKind.keyboard).2 = true ∧
    (PolicyOp.policiesInstalledOp EventKind.keyboard =
        PolicyOp.policiesInstalledOp EventKind.keyboard ∨
      PolicyOp.policiesInstalledOp EventKind.keyboard = PolicyOp.resetOp) :=
  ⟨rfl,
   dirty_bit_invariant.2.1 EventKind.keyboard sampleState rfl,
   dirty_bit_invariant.2.2.2.2
     (PolicyOp.policiesInstalledOp EventKind.keyboard) EventKind.keyboard
     (sampleState.suspend EventKind.keyboard) (by decide) (by decide)⟩

/-- C10: `removePolicyList(kind, id)` removes and returns the list from the
suspended policy set when the kind is suspended and the suspended set contains
the ID, leaving the active set untouched; in every other case it removes and
returns from the active set, leaving the suspended state untouched; the kind
is marked dirty in both cases. -/
theorem removePolicyList_routing (kind : EventKind) (id : Nat)
    (s : PolicyStoreState) :
    (∀ sp, s.suspendedPolicySets kind = some sp → sp.has id = true →
      (s.removePolicyList kind id).1 = sp.lookupList id ∧
      (s.removePolicyList kind id).2.suspendedPolicySets kind =
        some (sp.removePolicyList id).2 ∧
      ((sp.removePolicyList id).2).has id = false ∧
      (s.removePolicyList kind id).2.policySets kind = s.policySets kind ∧
      PolicyStoreState.isDirty kind (s.removePolicyList kind id).2 = true) ∧
    ((s.suspendedPolicySets kind = none ∨
        ∃ sp, s.suspendedPolicySets kind = some sp ∧ sp.has id = false) →
      (s.removePolicyList kind id).1 = (s.policySets kind).lookupList id ∧
      (s.removePolicyList kind id).2.policySets kind =
        ((s.policySets kind).removePolicyList id).2 ∧
      (s.removePolicyList kind id).2.suspendedPolicySets kind =
        s.suspendedPolicySets kind ∧
      PolicyStoreState.isDirty kind (s.removePolicyList kind id).2 = true) := by
  constructor
  · intro sp hsp hhas
    refine ⟨?_, ?_, ?_, ?_, ?_⟩
    · simp [PolicyStoreState.removePolicyList, hsp, hhas,
        EventPolicySet.removePolicyList]
    · simp [PolicyStoreState.removePolicyList, hsp, hhas, upd]
    · simp only [EventPolicySet.removePolicyList, EventPolicySet.has,
        List.any_eq_false]
      intro e he
      have h2 := List.of_mem_filter he
      simp only [bne_iff_ne, ne_eq] at h2
      simp [h2]
    · simp [PolicyStoreState.removePolicyList, hsp, hhas, upd]
    · simp [PolicyStoreState.removePolicyList, hsp, hhas,
        PolicyStoreState.isDirty, upd]
  · intro hcase
    cases hcase with
    | inl hnone =>
        refine ⟨?_, ?_, ?_, ?_⟩ <;>
          simp [PolicyStoreState.removePolicyList, hnone,
            EventPolicySet.removePolicyList, PolicyStoreState.isDirty, upd]
    | inr hex =>
        obtain ⟨sp, hsp, hhas⟩ := hex
        refine ⟨?_, ?_, ?_, ?_⟩ <;>
          simp [PolicyStoreState.removePolicyList, hsp, hhas,
            EventPolicySet.removePolicyList, PolicyStoreState.isDirty, upd]

/-- Witness for C10: at the sample state, removing ID 0 for the suspended
keyboard kind removes from the suspended set, and removing ID 2 (absent from
the suspended set) removes from the active set. -/
theorem removePolicyList_routing_witness :
    sampleState.suspendedPolicySets EventKind.keyboard = some sampleSet ∧
    sampleSet.has 0 = true ∧
    (sampleState.removePolicyList EventKind.keyboard 0).1 =
      sampleSet.lookupList 0 ∧
    sampleSet.has 2 = false ∧
    (sampleState.removePolicyList EventKind.keyboard 2).1 =
      (sampleState.policySets EventKind.keyboard).lookupList 2 :=
  ⟨rfl, by decide,
   ((removePolicyList_routing EventKind.keyboard 0 sampleState).1 sampleSet
      rfl (by decide)).1,
   by decide,
   ((removePolicyList_routing EventKind.keyboard 2 sampleState).2
      (Or.inr ⟨sampleSet, rfl, by decide⟩)).1⟩

end SpacesDesign
